import Mathlib

/-!
Verification of the FrameTagger upload ingestion pipeline.

This file gives a shallow embedding, in Lean 4, of the upload pipeline of
the FrameTagger repository: the content hasher and duplicate lookup
(`src/services/image_processor.py`), the geometry classifier and the
crop/normalize transform (same file), and the per-file state machine with
its job tracker (`src/main.py`, `process_upload` and the three resolve
endpoints).  Pure Python functions become Lean functions; the stateful
endpoints become explicit state-passing functions on a `World` record
holding the job dictionary, the staging area and the images table.

Modelling conventions, used throughout and noted again at each definition:
* Python `float` arithmetic on aspect ratios is modelled by exact rational
  arithmetic (`ℚ`); the constant `TARGET_ASPECT = 3840/2160` becomes the
  exact rational `3840/2160`.
* External collaborators (PIL, sqlite3, the filesystem, hashlib's stream
  interface) are modelled at the granularity the code observes them:
  decoded dimensions, an images table as a list of rows, the staging area
  as a list of (path, bytes) entries, PIL `crop`/`resize` at the level of
  image dimensions.  MD5 itself is implemented concretely (RFC 1321).
* A fallible external call is given an `Option String` slot in an
  environment record: `some msg` means the call raised an exception with
  message `msg`, `none` means it succeeded.
-/

/-! ## Content hasher (`image_processor.compute_md5`, lines 23-29)

`compute_md5` reads the file in 4096-byte chunks and feeds each chunk to an
incremental `hashlib.md5` object.  hashlib's incremental interface hashes
the concatenation of the updates, so the model splits the byte list into
4096-byte chunks, re-joins them, and applies a concrete implementation of
MD5 (RFC 1321).  Bytes are natural numbers; packing reduces them mod 256. -/

/-- Accumulating worker for `listChunks`: `cur` is the current chunk in
reverse, `k` the remaining capacity of the current chunk.  Structural
recursion on `rest`, so it reduces definitionally. -/
def listChunksGo (n : ℕ) (cur : List α) (rest : List α) (k : ℕ) : List (List α) :=
  match rest with
  | [] => [cur.reverse]
  | x :: xs =>
    match k with
    | 0 => cur.reverse :: listChunksGo n [x] xs (n - 1)
    | k' + 1 => listChunksGo n (x :: cur) xs k'

/-- Splits a list into consecutive chunks of `n` elements (the final chunk
may be shorter); the empty list has no chunks.  All uses have `n > 0`. -/
def listChunks (n : ℕ) (l : List α) : List (List α) :=
  match l with
  | [] => []
  | x :: xs => listChunksGo n [x] xs (n - 1)

/-- 2^32, the word modulus of MD5. -/
def M32 : ℕ := 4294967296

/-- Left-rotation of a 32-bit word. -/
def rotl32 (x n : ℕ) : ℕ := ((x <<< n) % M32) ||| (x >>> (32 - n))

/-- Bitwise complement of a 32-bit word. -/
def bnot32 (x : ℕ) : ℕ := x ^^^ (M32 - 1)

/-- The 64 per-round shift amounts of MD5. -/
def md5_shift : List ℕ :=
  [7, 12, 17, 22, 7, 12, 17, 22, 7, 12, 17, 22, 7, 12, 17, 22,
   5, 9, 14, 20, 5, 9, 14, 20, 5, 9, 14, 20, 5, 9, 14, 20,
   4, 11, 16, 23, 4, 11, 16, 23, 4, 11, 16, 23, 4, 11, 16, 23,
   6, 10, 15, 21, 6, 10, 15, 21, 6, 10, 15, 21, 6, 10, 15, 21]

/-- The 64 sine-derived additive constants of MD5 (RFC 1321). -/
def md5_sines : List ℕ :=
  [0xd76aa478, 0xe8c7b756, 0x242070db, 0xc1bdceee,
   0xf57c0faf, 0x4787c62a, 0xa8304613, 0xfd469501,
   0x698098d8, 0x8b44f7af, 0xffff5bb1, 0x895cd7be,
   0x6b901122, 0xfd987193, 0xa679438e, 0x49b40821,
   0xf61e2562, 0xc040b340, 0x265e5a51, 0xe9b6c7aa,
   0xd62f105d, 0x02441453, 0xd8a1e681, 0xe7d3fbc8,
   0x21e1cde6, 0xc33707d6, 0xf4d50d87, 0x455a14ed,
   0xa9e3e905, 0xfcefa3f8, 0x676f02d9, 0x8d2a4c8a,
   0xfffa3942, 0x8771f681, 0x6d9d6122, 0xfde5380c,
   0xa4beea44, 0x4bdecfa9, 0xf6bb4b60, 0xbebfbc70,
   0x289b7ec6, 0xeaa127fa, 0xd4ef3085, 0x04881d05,
   0xd9d4d039, 0xe6db99e5, 0x1fa27cf8, 0xc4ac5665,
   0xf4292244, 0x432aff97, 0xab9423a7, 0xfc93a039,
   0x655b59c3, 0x8f0ccc92, 0xffeff47d, 0x85845dd1,
   0x6fa87e4f, 0xfe2ce6e0, 0xa3014314, 0x4e0811a1,
   0xf7537e82, 0xbd3af235, 0x2ad7d2bb, 0xeb86d391]

/-- The nonlinear mixing function of round `i`. -/
def md5_mix (i b c d : ℕ) : ℕ :=
  if i < 16 then (b &&& c) ||| (bnot32 b &&& d)
  else if i < 32 then (d &&& b) ||| (bnot32 d &&& c)
  else if i < 48 then b ^^^ c ^^^ d
  else c ^^^ (b ||| bnot32 d)

/-- The message-word index used in round `i`. -/
def md5_msgIndex (i : ℕ) : ℕ :=
  if i < 16 then i
  else if i < 32 then (5 * i + 1) % 16
  else if i < 48 then (3 * i + 5) % 16
  else (7 * i) % 16

/-- One MD5 round on state `(a, b, c, d)` with message words `M`. -/
def md5_round (M : List ℕ) (st : ℕ × ℕ × ℕ × ℕ) (i : ℕ) : ℕ × ℕ × ℕ × ℕ :=
  let (a, b, c, d) := st
  let f := (md5_mix i b c d + a + md5_sines.getD i 0 + M.getD (md5_msgIndex i) 0) % M32
  (d, (b + rotl32 f (md5_shift.getD i 0)) % M32, b, c)

/-- Little-endian byte serialization of `v`, `k` bytes long. -/
def leBytes : ℕ → ℕ → List ℕ
  | 0, _ => []
  | k + 1, v => v % 256 :: leBytes k (v / 256)

/-- Packs a 64-byte block into 16 little-endian 32-bit words. -/
def md5_words (block : List ℕ) : List ℕ :=
  (listChunks 4 block).map fun w =>
    w.getD 0 0 % 256 + (w.getD 1 0 % 256) * 256 +
      (w.getD 2 0 % 256) * 65536 + (w.getD 3 0 % 256) * 16777216

/-- Processes one 64-byte block. -/
def md5_processBlock (st : ℕ × ℕ × ℕ × ℕ) (block : List ℕ) : ℕ × ℕ × ℕ × ℕ :=
  let M := md5_words block
  let (a, b, c, d) := (List.range 64).foldl (md5_round M) st
  ((st.1 + a) % M32, (st.2.1 + b) % M32, (st.2.2.1 + c) % M32, (st.2.2.2 + d) % M32)

/-- MD5 padding: a 0x80 byte, zeros to 56 mod 64, then the bit length as a
little-endian 64-bit integer. -/
def md5_pad (msg : List ℕ) : List ℕ :=
  let len := msg.length
  let padZeros := (120 - (len + 1) % 64) % 64
  msg.map (· % 256) ++ [0x80] ++ List.replicate padZeros 0 ++ leBytes 8 ((len * 8) % 2 ^ 64)

/-- A hexadecimal digit character, lowercase as `hexdigest` produces. -/
def hexDigit (n : ℕ) : Char := if n < 10 then Char.ofNat (48 + n) else Char.ofNat (87 + n)

/-- Two lowercase hex digits for one byte. -/
def byteToHex (b : ℕ) : String := String.mk [hexDigit (b / 16 % 16), hexDigit (b % 16)]

/-- The lowercase hexadecimal MD5 digest of a byte list (RFC 1321). -/
def md5_hexdigest (msg : List ℕ) : String :=
  let blocks := listChunks 64 (md5_pad msg)
  let st := blocks.foldl md5_processBlock (0x67452301, 0xefcdab89, 0x98badcfe, 0x10325476)
  String.join ((leBytes 4 st.1 ++ leBytes 4 st.2.1 ++ leBytes 4 st.2.2.1 ++
    leBytes 4 st.2.2.2).map byteToHex)

/-- Model of `compute_md5` (image_processor.py lines 23-29): the staged
file's bytes are read in 4096-byte chunks, each fed to the incremental
hash; hashing the concatenation of the chunks is hashlib's semantics. -/
def compute_md5 (content : List ℕ) : String :=
  md5_hexdigest (List.flatten (listChunks 4096 content))

/-! ## Duplicate resolver (`image_processor.check_duplicates`, lines 32-52)

The sqlite `images` table is modelled as a list of rows in insertion
order; `SELECT id, path FROM images WHERE md5_hash = ?` with `fetchone`
returns the first row whose `md5_hash` column equals the parameter (a NULL
hash, `none` here, never matches). -/

/-- A row of the `images` table (`init_db`, main.py lines 70-79): id, path,
optional md5 hash, owning folder id. -/
structure ImageRow where
  id : ℕ
  path : String
  md5_hash : Option String
  folder_id : ℕ
deriving Repr, DecidableEq

/-- The duplicate descriptor returned by `check_duplicates`: location tag
`"library"`, matched record id and path. -/
structure DupInfo where
  location : String
  id : ℕ
  path : String
deriving Repr, DecidableEq

/-- Model of `check_duplicates` (image_processor.py lines 32-52): exact
equality lookup of the hash in the images table, first match wins. -/
def check_duplicates (db : List ImageRow) (md5h : String) : Option DupInfo :=
  match db.find? (fun r => r.md5_hash == some md5h) with
  | some r => some ⟨"library", r.id, r.path⟩
  | none => none

/-! ## Geometry classifier (`image_processor.detect_orientation_and_aspect`,
lines 61-86) and the module constants (lines 12-15).

Python's float constants and comparisons are modelled with exact rational
arithmetic; `0.1` is exactly representable as `1/10 : ℚ`. -/

def TARGET_WIDTH : ℕ := 3840

def TARGET_HEIGHT : ℕ := 2160

/-- `TARGET_ASPECT = TARGET_WIDTH / TARGET_HEIGHT` (a Python float in the
source, modelled as the exact rational 16/9). -/
def TARGET_ASPECT : ℚ := (TARGET_WIDTH : ℚ) / (TARGET_HEIGHT : ℚ)

/-- `ASPECT_TOLERANCE = 0.1`. -/
def ASPECT_TOLERANCE : ℚ := 0.1

inductive ImgOrientation where
  | portrait
  | landscape
deriving Repr, DecidableEq

/-- The dictionary returned by `detect_orientation_and_aspect`. -/
structure GeomInfo where
  orientation : ImgOrientation
  width : ℕ
  height : ℕ
  aspect : ℚ
  is_close_to_16_9 : Bool
deriving Repr, DecidableEq

/-- Model of `detect_orientation_and_aspect` (image_processor.py lines
61-86), taking the already-decoded dimensions (the function itself only
reads `image.size`).  Decoded dimensions of a real image are at least 1;
`height = 0` would raise `ZeroDivisionError` in the source, so theorems
about this function assume positive dimensions. -/
def detect_orientation_and_aspect (width height : ℕ) : GeomInfo :=
  if height > width then
    ⟨.portrait, width, height, (width : ℚ) / (height : ℚ), false⟩
  else
    let aspect := (width : ℚ) / (height : ℚ)
    ⟨.landscape, width, height, aspect, decide (|aspect - TARGET_ASPECT| ≤ ASPECT_TOLERANCE)⟩

/-! ## Crop/normalize transform (`image_processor.crop_and_export_frameready`,
lines 119-206)

The transform is modelled in separable pieces, each faithful to the lines
it names: output filename derivation (lines 143-162), crop-rectangle
computation (lines 164-187), the dimension pipeline crop-then-resize
(lines 189-193), and the encode call with its EXIF fallback (lines
195-204). -/

/-- Python `int()` applied to a float: truncation toward zero, modelled on
rationals. -/
def pyInt (q : ℚ) : ℤ := if 0 ≤ q then ⌊q⌋ else ⌈q⌉

/-- Python string slicing `s[:n]` for an `Int` bound `n`: a nonnegative
bound takes the first `n` characters, a negative bound drops the last
`|n|` characters (clamped at the empty string). -/
def pySliceTo (s : String) (n : ℤ) : String :=
  if 0 ≤ n then String.mk (s.toList.take n.toNat)
  else String.mk (s.toList.take (s.length - n.natAbs))

/-- Output filename derivation of `crop_and_export_frameready`
(image_processor.py lines 148-162), as a function of the original name's
stem and extension: `{stem}_fr{ext}`; if that exceeds 255 characters the
stem is sliced to `255 - len("_fr" + ext)` characters (a Python slice with
a possibly negative bound) before appending the suffix. -/
def frameready_filename (stem ext : String) : String :=
  if (stem ++ "_fr" ++ ext).length > 255 then
    pySliceTo stem (255 - (("_fr" ++ ext).length : ℤ)) ++ "_fr" ++ ext
  else stem ++ "_fr" ++ ext

/-- The full output path (lines 134-138, 153, 162): the derivative is
written into the per-library export subfolder `frameready_folder`
(defaulting to `"FrameReady"`) of `library_root`. -/
def frameready_output_path (library_root : String) (frameready_folder : Option String)
    (stem ext : String) : String :=
  let folder_name := frameready_folder.getD "FrameReady"
  library_root ++ "/" ++ folder_name ++ "/" ++ frameready_filename stem ext

/-- A crop rectangle in source-pixel coordinates: `x`, `y`, `crop_width`,
`crop_height` as computed at image_processor.py lines 168-187. -/
structure CropRect where
  x : ℤ
  y : ℤ
  crop_width : ℤ
  crop_height : ℤ
deriving Repr, DecidableEq

/-- A user-supplied crop box in normalized [0,1] coordinates (the
`crop_box` dict). -/
structure CropBox where
  x : ℚ
  y : ℚ
  width : ℚ
  height : ℚ
deriving Repr, DecidableEq

/-- The automatic centered crop rectangle (image_processor.py lines
176-187): Python `int()` truncates, `//` is floor division. -/
def autoCropRect (width height : ℕ) : CropRect :=
  if (width : ℚ) / (height : ℚ) > TARGET_ASPECT then
    let crop_height : ℤ := height
    let crop_width : ℤ := pyInt ((height : ℚ) * TARGET_ASPECT)
    ⟨((width : ℤ) - crop_width).fdiv 2, 0, crop_width, crop_height⟩
  else
    let crop_width : ℤ := width
    let crop_height : ℤ := pyInt ((width : ℚ) / TARGET_ASPECT)
    ⟨0, ((height : ℤ) - crop_height).fdiv 2, crop_width, crop_height⟩

/-- A user-specified crop rectangle, denormalized by the source dimensions
(image_processor.py lines 168-173). -/
def userCropRect (box : CropBox) (width height : ℕ) : CropRect :=
  ⟨pyInt (box.x * width), pyInt (box.y * height),
   pyInt (box.width * width), pyInt (box.height * height)⟩

/-- The crop rectangle used by the transform (lines 168-187): the
user-supplied box when present, the automatic centered one otherwise. -/
def cropRect (width height : ℕ) : Option CropBox → CropRect
  | some box => userCropRect box width height
  | none => autoCropRect width height

/-- Image dimensions, the granularity at which the transform's PIL calls
are modelled. -/
structure ImgDims where
  width : ℕ
  height : ℕ
deriving Repr, DecidableEq

/-- PIL `Image.crop((left, upper, right, lower))` at the dimension level:
the result is `(right - left) x (lower - upper)` (regions outside the
source are padded; inverted boxes clamp to zero). -/
def pilCropDims (left upper right lower : ℤ) : ImgDims :=
  ⟨(right - left).toNat, (lower - upper).toNat⟩

/-- PIL `Image.resize((w, h))` at the dimension level: the result has
exactly the requested dimensions. -/
def pilResizeDims (_ : ImgDims) (w h : ℕ) : ImgDims := ⟨w, h⟩

/-- The dimension pipeline of `crop_and_export_frameready` (lines 189-193):
crop to the computed rectangle, then resize to the fixed target. -/
def crop_and_export_dims (width height : ℕ) (box : Option CropBox) : ImgDims :=
  let r := cropRect width height box
  let cropped := pilCropDims r.x r.y (r.x + r.crop_width) (r.y + r.crop_height)
  pilResizeDims cropped TARGET_WIDTH TARGET_HEIGHT

/-- The arguments of the final `save` call. -/
structure SaveCall where
  format : String
  quality : ℕ
  exif : Option (List ℕ)
deriving Repr, DecidableEq

/-- The encode step of `crop_and_export_frameready` (lines 195-204): always
JPEG at quality 95; the source's EXIF blob is attached when present and
non-empty, and if saving with EXIF raises, the fallback saves without
metadata.  `exifSaveFails` models the `except` branch being taken. -/
def frameready_save (exif_data : Option (List ℕ)) (exifSaveFails : Bool) : SaveCall :=
  match exif_data with
  | some e =>
    if e ≠ [] then
      if exifSaveFails then ⟨"JPEG", 95, none⟩ else ⟨"JPEG", 95, some e⟩
    else ⟨"JPEG", 95, none⟩
  | none => ⟨"JPEG", 95, none⟩

/-- Python `pathlib.Path.stem` of a file name (no directory separators):
everything before the last dot, unless the dot is the first character or
the last, in which case the whole name is the stem. -/
def pathStem (name : String) : String :=
  let cs := name.toList
  match (cs.reverse.findIdx? (· = '.')) with
  | some ri =>
    let i := cs.length - 1 - ri
    if 0 < i ∧ i < cs.length - 1 then String.mk (cs.take i) else name
  | none => name

/-- Python `pathlib.Path.suffix` of a file name: the last dot and what
follows, unless the dot is first or last, in which case the suffix is
empty. -/
def pathSuffix (name : String) : String :=
  let cs := name.toList
  match (cs.reverse.findIdx? (· = '.')) with
  | some ri =>
    let i := cs.length - 1 - ri
    if 0 < i ∧ i < cs.length - 1 then String.mk (cs.drop i) else ""
  | none => ""

/-! ## File task state machine and job tracker (`src/main.py`)

The job dictionary `upload_jobs[job_id]`, the staging directory and the
images table form a `World`; `process_upload` (lines 649-777) and the
three resolve endpoints (lines 779-989) are state-passing functions on it.
Not modelled, because no claim mentions them: the `current_step` string,
the per-file progress update at line 656 (progress is set to 100 at line
773, which is modelled), and the job-id map itself (each function acts on
the one job the claims quantify over; an unknown job id returns an error
without touching any state).  Each fallible external call (staging write,
hash read, thumbnail render, decode, crop/export, rename) has an
`Option String` slot in the per-file environment: `some msg` means that
call raised an exception with message `msg`. -/

/-- The `status` field of a result dict in `upload_jobs[...]["results"]`.
These five strings are the only values the code ever assigns. -/
inductive FileStatus where
  | duplicate_detected
  | needs_positioning
  | portrait_rejected
  | success
  | skipped
deriving Repr, DecidableEq

/-- A result dict: original filename, status, the staging path recorded for
awaiting states, the matched duplicate's record id when present, and the
finalized record id. -/
structure FileResult where
  filename : String
  status : FileStatus
  staging_path : Option String
  dup_id : Option ℕ
  id : Option ℕ
deriving Repr, DecidableEq

/-- The `status` field of a job dict. -/
inductive JobStatus where
  | processing
  | waiting_for_user_action
  | complete
  | error
deriving Repr, DecidableEq

/-- The job dict created at main.py lines 600-608. -/
structure Job where
  status : JobStatus
  progress : ℕ
  total_files : ℕ
  folder_id : ℕ
  results : List FileResult
  errors : List String
deriving Repr, DecidableEq

/-- Mutable state visible to the pipeline: the job dict, the staging area
(a set of path-bytes pairs; paths are unique, uuid-prefixed), and the
images table. -/
structure World where
  job : Job
  staging : List (String × List ℕ)
  dbImages : List ImageRow
deriving Repr, DecidableEq

/-- The paths currently present in the staging area. -/
def stagingPaths (w : World) : List String := w.staging.map (·.1)

/-- Writes a staged file (main.py lines 662-665). -/
def addStaging (w : World) (p : String) (content : List ℕ) : World :=
  { w with staging := w.staging ++ [(p, content)] }

/-- `cleanup_staging_file` (image_processor.py lines 209-214): best-effort
unlink of one staging path; a missing file is ignored. -/
def cleanup_staging_file (w : World) (p : String) : World :=
  { w with staging := w.staging.filter (fun e => e.1 ≠ p) }

/-- Appends a result dict to `upload_jobs[job_id]["results"]`. -/
def appendResult (w : World) (r : FileResult) : World :=
  { w with job := { w.job with results := w.job.results ++ [r] } }

/-- Appends a message to `upload_jobs[job_id]["errors"]`. -/
def appendError (w : World) (msg : String) : World :=
  { w with job := { w.job with errors := w.job.errors ++ [msg] } }

/-- Model of `add_image_to_db` (main.py lines 285-301): `INSERT` a new row
and return its fresh rowid; on an `IntegrityError` (the `path` column is
UNIQUE, so this fires exactly when a row with that path already exists)
insert nothing and return the existing row's id — the existing row keeps
its old `md5_hash`.  `newId` is the rowid sqlite would assign to a fresh
insert.  Returns the updated table and the returned id. -/
def add_image_to_db (db : List ImageRow) (folder_id : ℕ) (newId : ℕ)
    (path : String) (md5h : Option String) : List ImageRow × Option ℕ :=
  match db.find? (fun r => r.path == path) with
  | some r => (db, some r.id)
  | none => (db ++ [⟨newId, path, md5h, folder_id⟩], some newId)

/-- `delete_image_from_db` (main.py lines 210-216): `DELETE FROM images
WHERE id = ?`. -/
def deleteImageRow (w : World) (id : ℕ) : World :=
  { w with dbImages := w.dbImages.filter (fun r => r.id ≠ id) }

/-- Per-file inputs and external-call outcomes for one iteration of the
`process_upload` loop: the filename and submitted bytes, the uuid-prefixed
staging name chosen at line 662, the decoded dimensions (`none` when
`Image.open`/`.size` raises), the rowid sqlite would assign to a fresh
insert by `add_image_to_db`, and one `Option String` fault slot per
fallible external call. -/
structure FileEnv where
  filename : String
  stagingName : String
  content : List ℕ
  writeFault : Option String
  hashFault : Option String
  dupSideFault : Option String
  decode : Option (ℕ × ℕ)
  decodeMsg : String
  thumbFault : Option String
  newId : ℕ
  cropFault : Option String
  renameFault : Option String
deriving Repr, DecidableEq

/-- Convenience: `is_close_to_16_9` of the decoded dimensions. -/
def isCloseTo169 (width height : ℕ) : Bool :=
  (detect_orientation_and_aspect width height).is_close_to_16_9

/-- The body of the inner `try` of the `process_upload` loop (main.py lines
659-756) for one file.  Returns the world as mutated so far together with
`some msg` if an exception was raised (side effects that precede the raise
persist, as in Python).  Branches, in source order: staging write, hash,
duplicate check (halting in `duplicate_detected`), orientation check
(portrait halts in `portrait_rejected` and cleans staging), closeness
check (halting in `needs_positioning`), `add_image_to_db` (either a fresh
insert or an existing id on a path collision; a falsy return — `None` or
id 0 — gives an error list entry plus cleanup), then export, rename out
of staging, and the `success` result. -/
def processFileBody (folderPath : String) (w : World) (env : FileEnv) :
    World × Option String :=
  match env.writeFault with
  | some m => (w, some m)
  | none =>
    let w := addStaging w env.stagingName env.content
    match env.hashFault with
    | some m => (w, some m)
    | none =>
      let md5_hash := compute_md5 env.content
      match check_duplicates w.dbImages md5_hash with
      | some dup =>
        match env.dupSideFault with
        | some m => (w, some m)
        | none =>
          (appendResult w ⟨env.filename, .duplicate_detected,
            some env.stagingName, some dup.id, none⟩, none)
      | none =>
        match env.decode with
        | none => (w, some env.decodeMsg)
        | some (width, height) =>
          if height > width then
            (cleanup_staging_file
              (appendResult w ⟨env.filename, .portrait_rejected, none, none, none⟩)
              env.stagingName, none)
          else if ¬ isCloseTo169 width height then
            match env.thumbFault with
            | some m => (w, some m)
            | none =>
              (appendResult w ⟨env.filename, .needs_positioning,
                some env.stagingName, none, none⟩, none)
          else
            match add_image_to_db w.dbImages w.job.folder_id env.newId
                (folderPath ++ "/" ++ env.filename) (some md5_hash) with
            | (db', none) =>
              (cleanup_staging_file
                (appendError { w with dbImages := db' }
                  ("Failed to add " ++ env.filename ++ " to database"))
                env.stagingName, none)
            | (db', some image_id) =>
              if image_id = 0 then
                (cleanup_staging_file
                  (appendError { w with dbImages := db' }
                    ("Failed to add " ++ env.filename ++ " to database"))
                  env.stagingName, none)
              else
                match env.cropFault with
                | some m => ({ w with dbImages := db' }, some m)
                | none =>
                  match env.renameFault with
                  | some m => ({ w with dbImages := db' }, some m)
                  | none =>
                    (appendResult
                      (cleanup_staging_file { w with dbImages := db' } env.stagingName)
                      ⟨env.filename, .success, none, none, some image_id⟩, none)

/-- One iteration of the `process_upload` loop with its `except` handler
(main.py lines 758-763): on an exception the message is appended to the
job's error list prefixed by the filename, and the staging file is
best-effort cleaned. -/
def processFile (folderPath : String) (w : World) (env : FileEnv) : World :=
  match processFileBody folderPath w env with
  | (w', none) => w'
  | (w', some m) =>
    cleanup_staging_file (appendError w' (env.filename ++ ": " ++ m)) env.stagingName

/-- True iff the result is in an awaiting state, the membership test
`r["status"] in ["duplicate_detected", "needs_positioning"]` of main.py
lines 766, 817, 849, 879, 952, 982. -/
def isAwaiting : FileStatus → Bool
  | .duplicate_detected => true
  | .needs_positioning => true
  | _ => false

/-- True iff the status is terminal. -/
def isTerminal : FileStatus → Bool
  | .success => true
  | .skipped => true
  | .portrait_rejected => true
  | _ => false

/-- The aggregate-status assignment after the loop (main.py lines 765-773):
`waiting_for_user_action` if any result awaits a decision, else
`complete`; progress is set to 100. -/
def finishJob (j : Job) : Job :=
  let files_needing_action := j.results.any (fun r => isAwaiting r.status)
  { j with
    status := if files_needing_action then .waiting_for_user_action else .complete,
    progress := 100 }

/-- The whole per-file loop of `process_upload`. -/
def processUploadLoop (folderPath : String) (w : World) (envs : List FileEnv) : World :=
  envs.foldl (processFile folderPath) w

/-- Model of `process_upload` (main.py lines 649-777): process every file,
then recompute the aggregate status.  The outer `except` (lines 775-777)
never fires in the model because every per-file exception is already
caught by the inner handler, as in the source. -/
def process_upload (folderPath : String) (w : World) (envs : List FileEnv) : World :=
  let w' := processUploadLoop folderPath w envs
  { w' with job := finishJob w'.job }

/-! ## Resolve endpoints (main.py lines 779-989)

Each endpoint looks up the named file's result dict (first match by
filename, `next(...)`), checks its status, performs the action and then
recomputes the job-level status.  The folder lookup and every fallible
call get environment slots.  Any exception raised inside the `try` is
answered with an error response; all mutations of the job dict happen
after the last fallible call, so the job is unchanged on such a fault
(partial database and file effects that precede the fault persist and are
kept in the model where they occur before it). -/

/-- An endpoint's JSON response, reduced to ok-or-error. -/
inductive ApiResp where
  | ok (info : String)
  | error (msg : String)
deriving Repr, DecidableEq

/-- External-call outcomes for one resolve call: the folder path found for
the job's `folder_id` (`none` when the folder row is missing), a fault
slot for the fallible calls before `add_image_to_db` (`compute_md5`), the
rowid sqlite would assign to a fresh insert by `add_image_to_db`, and a
fault slot for the calls after it (`crop_and_export_frameready`, the
rename, the path update). -/
structure ResolveEnv where
  folderPath : Option String
  fault1 : Option String
  newId : ℕ
  fault2 : Option String
deriving Repr, DecidableEq

/-- Updates the first result dict matching the predicate (the endpoints
mutate the dict object `next(...)` found, i.e. the first match). -/
def updateFirst (p : FileResult → Bool) (f : FileResult → FileResult) :
    List FileResult → List FileResult
  | [] => []
  | r :: rs => if p r then f r :: rs else r :: updateFirst p f rs

/-- The aggregate-status recomputation at the end of each resolve action
(main.py lines 816-819, 848-851, 878-881, 951-954, 981-984): if no result
still awaits a decision the job becomes `complete`; otherwise the status
is left as it is. -/
def refreshAfterResolve (j : Job) : Job :=
  if j.results.any (fun r => isAwaiting r.status) then j
  else { j with status := .complete }

/-- Applies `refreshAfterResolve` to the world's job. -/
def refreshWorld (w : World) : World :=
  { w with job := refreshAfterResolve w.job }

/-- Sets the first result matching `filename` to a terminal status with the
given finalized id. -/
def setResult (w : World) (filename : String) (st : FileStatus) (id : Option ℕ) : World :=
  { w with job := { w.job with
      results := updateFirst (fun r => r.filename == filename)
        (fun r => { r with status := st, id := id }) w.job.results } }

/-- The bytes staged under path `p`, when present. -/
def stagedContent (w : World) (p : String) : Option (List ℕ) :=
  (w.staging.find? (fun e => e.1 == p)).map (·.2)

/-- The shared finalization tail of the `overwrite` and `import_anyway`
branches and of `finalize_positioned_upload` (main.py lines 829-852,
859-882, 926-956): hash the staged bytes, call `add_image_to_db` (a fresh
insert, or an existing id on a path collision; a falsy return is answered
with an error), export the derivative, move the staged file to
`folder_path / name`, update the record's path, mark the result `success`
and recompute the aggregate status.  `sp` is the staging path, `name` the
destination filename. -/
def finalizeStaged (w : World) (env : ResolveEnv) (folderPath : String)
    (filename name sp : String) : World × ApiResp :=
  match env.fault1 with
  | some m => (w, .error m)
  | none =>
    match add_image_to_db w.dbImages w.job.folder_id env.newId
        (folderPath ++ "/" ++ name) (some (compute_md5 ((stagedContent w sp).getD []))) with
    | (db', none) => ({ w with dbImages := db' }, .error "Failed to add image to database")
    | (db', some image_id) =>
      if image_id = 0 then
        ({ w with dbImages := db' }, .error "Failed to add image to database")
      else
        match env.fault2 with
        | some m => ({ w with dbImages := db' }, .error m)
        | none =>
          (refreshWorld (setResult
            (cleanup_staging_file { w with dbImages := db' } sp)
            filename .success (some image_id)), .ok (toString image_id))

/-- The record deletion at the start of the `overwrite` branch (main.py
lines 823-826): `delete_image_completely` on the matched record's id when
it is truthy (sqlite ids are nonzero; `0` and `None` are falsy). -/
def overwriteDelete (w : World) (dup_id : Option ℕ) : World :=
  match dup_id with
  | some old_id => if old_id ≠ 0 then deleteImageRow w old_id else w
  | none => w

/-- The disambiguated filename of the `import_anyway` branch (main.py lines
856-857): `base_1.ext` when the name has a non-empty extension after its
last dot, `filename_1` otherwise. -/
def import_anyway_rename (filename : String) : String :=
  let cs := filename.toList
  match cs.reverse.findIdx? (· = '.') with
  | some ri =>
    let i := cs.length - 1 - ri
    let ext := String.mk (cs.drop (i + 1))
    if ext ≠ "" then String.mk (cs.take i) ++ "_1." ++ ext else filename ++ "_1"
  | none => filename ++ "_1"

/-- Model of `handle_duplicate` (main.py lines 779-888).  Guards in source
order: result found and in `duplicate_detected`, staging file present,
folder row found; then the action dispatch.  `skip` cleans the staged file
and marks the result `skipped`; `overwrite` first deletes the matched
record (and its file) and then finalizes the incoming file; an
unrecognized action answers `{"error": "Invalid action"}` with nothing
changed. -/
def handle_duplicate (w : World) (env : ResolveEnv) (filename action : String) :
    World × ApiResp :=
  match w.job.results.find? (fun r => r.filename == filename) with
  | none => (w, .error "File not found or not in duplicate state")
  | some result =>
    if result.status ≠ .duplicate_detected then
      (w, .error "File not found or not in duplicate state")
    else
      match result.staging_path with
      | none => (w, .error "staging_path")
      | some sp =>
        if sp ∉ stagingPaths w then (w, .error "Staging file not found")
        else
          match env.folderPath with
          | none => (w, .error "Folder not found")
          | some folderPath =>
            if action = "skip" then
              let w := cleanup_staging_file w sp
              let w := setResult w filename .skipped result.id
              (refreshWorld w, .ok "skipped")
            else if action = "overwrite" then
              finalizeStaged (overwriteDelete w result.dup_id) env folderPath
                filename filename sp
            else if action = "import_anyway" then
              finalizeStaged w env folderPath filename (import_anyway_rename filename) sp
            else
              (w, .error "Invalid action")

/-- Model of `finalize_positioned_upload` (main.py lines 890-959): the
named file must be in `needs_positioning`; the user's crop box is passed
to the transform (inside the `fault2` region, after `add_image_to_db`, so
a malformed box surfaces as an error with the job unchanged). -/
def finalize_positioned_upload (w : World) (env : ResolveEnv) (filename : String) :
    World × ApiResp :=
  match w.job.results.find? (fun r => r.filename == filename) with
  | none => (w, .error "File not found in positioning queue")
  | some result =>
    if result.status ≠ .needs_positioning then
      (w, .error "File not found in positioning queue")
    else
      match result.staging_path with
      | none => (w, .error "staging_path")
      | some sp =>
        if sp ∉ stagingPaths w then (w, .error "Staging file not found")
        else
          match env.folderPath with
          | none => (w, .error "Folder not found")
          | some folderPath => finalizeStaged w env folderPath filename filename sp

/-- Model of `skip_positioned_upload` (main.py lines 961-989): the named
file must be in `needs_positioning`; its staged file is best-effort
cleaned (no existence check) and it is marked `skipped`. -/
def skip_positioned_upload (w : World) (filename : String) : World × ApiResp :=
  match w.job.results.find? (fun r => r.filename == filename) with
  | none => (w, .error "File not found in positioning queue")
  | some result =>
    if result.status ≠ .needs_positioning then
      (w, .error "File not found in positioning queue")
    else
      match result.staging_path with
      | none => (w, .error "staging_path")
      | some sp =>
        let w := cleanup_staging_file w sp
        let w := setResult w filename .skipped result.id
        (refreshWorld w, .ok "skipped")

/-! ## Spec-side definitions

For the refinement claims, a second definition follows the specification's
words, to be compared with the one translated from the source. -/

/-- The automatic crop rectangle as the specification words it (claim C2):
`round` in place of the source's `int` truncation.  Python's `round` is
banker's rounding; it agrees with Mathlib's `round` away from exact
half-integer ties, and no theorem below instantiates it at a tie. -/
def claimCropRect (width height : ℕ) : CropRect :=
  if (width : ℚ) / (height : ℚ) > TARGET_ASPECT then
    let crop_width : ℤ := round ((height : ℚ) * TARGET_ASPECT)
    ⟨((width : ℤ) - crop_width).fdiv 2, 0, crop_width, (height : ℤ)⟩
  else
    let crop_height : ℤ := round ((width : ℚ) / TARGET_ASPECT)
    ⟨0, ((height : ℤ) - crop_height).fdiv 2, (width : ℤ), crop_height⟩

/-- The automatic crop rectangle with the claim's `round` corrected to the
floor that Python's `int()` performs on these nonnegative quantities. -/
def flooredClaimCropRect (width height : ℕ) : CropRect :=
  if (width : ℚ) / (height : ℚ) > TARGET_ASPECT then
    let crop_width : ℤ := ⌊(height : ℚ) * TARGET_ASPECT⌋
    ⟨((width : ℤ) - crop_width).fdiv 2, 0, crop_width, (height : ℤ)⟩
  else
    let crop_height : ℤ := ⌊(width : ℚ) / TARGET_ASPECT⌋
    ⟨0, ((height : ℤ) - crop_height).fdiv 2, (width : ℤ), crop_height⟩

/-! ## Theorems -/

/-- TARGET_ASPECT is positive (16/9). -/
theorem target_aspect_pos : (0 : ℚ) < TARGET_ASPECT := by
  norm_num [TARGET_ASPECT, TARGET_WIDTH, TARGET_HEIGHT]

/-- `pyInt` agrees with the floor on nonnegative rationals. -/
theorem pyInt_eq_floor (q : ℚ) (h : 0 ≤ q) : pyInt q = ⌊q⌋ := by
  unfold pyInt
  exact if_pos h

/-- The crop condition at a 2x1 source: aspect 2 exceeds the target. -/
theorem twoOneWide : ((2 : ℕ) : ℚ) / ((1 : ℕ) : ℚ) > TARGET_ASPECT := by
  norm_num [TARGET_ASPECT, TARGET_WIDTH, TARGET_HEIGHT]

/-- The code's crop rectangle at a 2x1 source: `int(1 * 16/9) = 1`. -/
theorem autoCropRect_two_one : autoCropRect 2 1 = ⟨0, 0, 1, 1⟩ := by
  unfold autoCropRect
  rw [if_pos twoOneWide,
    pyInt_eq_floor _ (mul_nonneg (by norm_num) (le_of_lt target_aspect_pos)),
    show ⌊((1 : ℕ) : ℚ) * TARGET_ASPECT⌋ = 1 from by
      norm_num [TARGET_ASPECT, TARGET_WIDTH, TARGET_HEIGHT]]
  rfl

/-- The claim's rounded crop rectangle at a 2x1 source:
`round(1 * 16/9) = 2`. -/
theorem claimCropRect_two_one : claimCropRect 2 1 = ⟨0, 0, 2, 1⟩ := by
  unfold claimCropRect
  rw [if_pos twoOneWide,
    show round (((1 : ℕ) : ℚ) * TARGET_ASPECT) = 2 from by
      rw [round_eq]; norm_num [TARGET_ASPECT, TARGET_WIDTH, TARGET_HEIGHT]]
  rfl

/-- C2 (counterexample): at a 2x1 source the automatic crop rectangle of
the code differs from the claim's rounded formula: the code computes
`crop_width = int(1 * 16/9) = 1` where the claim says
`round(1 * 16/9) = 2`. -/
theorem c2_autocrop_round_counterexample : autoCropRect 2 1 ≠ claimCropRect 2 1 := by
  rw [autoCropRect_two_one, claimCropRect_two_one]
  decide

/-- C2 (amended: the code truncates with `int()`, i.e. floors these
nonnegative quantities, instead of rounding): for every source of width
and height at least 1 with no explicit crop rectangle, the automatic crop
rectangle is: if `w/h > TARGET_ASPECT` then crop height `h`, crop width
`int(h * TARGET_ASPECT)`, `x = (w - crop_width) // 2`, `y = 0`; otherwise
crop width `w`, crop height `int(w / TARGET_ASPECT)`, `x = 0`,
`y = (h - crop_height) // 2`. -/
theorem c2_autocrop_floored (w h : ℕ) (hw : 1 ≤ w) (hh : 1 ≤ h) :
    autoCropRect w h = flooredClaimCropRect w h := by
  have h1 : (0 : ℚ) ≤ (h : ℚ) * TARGET_ASPECT :=
    mul_nonneg (Nat.cast_nonneg h) (le_of_lt target_aspect_pos)
  have h2 : (0 : ℚ) ≤ (w : ℚ) / TARGET_ASPECT :=
    div_nonneg (Nat.cast_nonneg w) (le_of_lt target_aspect_pos)
  unfold autoCropRect flooredClaimCropRect
  rw [pyInt_eq_floor _ h1, pyInt_eq_floor _ h2]

/-- C2 witness: the amended statement at the 2x1 counterexample input. -/
theorem c2_autocrop_floored_witness : autoCropRect 2 1 = flooredClaimCropRect 2 1 :=
  c2_autocrop_floored 2 1 (by decide) (by decide)

/-- C4: for positive decoded dimensions the classifier reports portrait iff
`height > width` (equal dimensions are landscape), and for landscape input
the closeness flag is set iff `|width/height - 3840/2160| <= 0.1`. -/
theorem c4_classifier_spec (w h : ℕ) (hw : 1 ≤ w) (hh : 1 ≤ h) :
    ((detect_orientation_and_aspect w h).orientation = .portrait ↔ w < h) ∧
    (h ≤ w →
      ((detect_orientation_and_aspect w h).is_close_to_16_9 = true ↔
        |(w : ℚ) / (h : ℚ) - (3840 : ℚ) / (2160 : ℚ)| ≤ (1 : ℚ) / 10)) := by
  constructor
  · by_cases hp : w < h
    · simp [detect_orientation_and_aspect, if_pos hp, hp]
    · simp [detect_orientation_and_aspect, if_neg hp, hp]
  · intro hle
    have hp : ¬ w < h := not_lt.mpr hle
    simp only [detect_orientation_and_aspect, if_neg hp, decide_eq_true_eq]
    rw [show TARGET_ASPECT = (3840 : ℚ) / (2160 : ℚ) from by
          norm_num [TARGET_ASPECT, TARGET_WIDTH, TARGET_HEIGHT],
        show ASPECT_TOLERANCE = (1 : ℚ) / 10 from by norm_num [ASPECT_TOLERANCE]]

/-- C4 witness: the classifier at 3840x2160 (landscape, exactly on
target). -/
theorem c4_classifier_spec_witness :
    ((detect_orientation_and_aspect 3840 2160).orientation = .portrait ↔ 3840 < 2160) ∧
    (2160 ≤ 3840 →
      ((detect_orientation_and_aspect 3840 2160).is_close_to_16_9 = true ↔
        |(3840 : ℚ) / (2160 : ℚ) - (3840 : ℚ) / (2160 : ℚ)| ≤ (1 : ℚ) / 10)) :=
  c4_classifier_spec 3840 2160 (by decide) (by decide)

/-- C5: the crop-normalize transform always produces a derivative of
exactly the fixed target 3840x2160, for every valid source size and both
for automatic and user-supplied crop rectangles (the final `resize` call
requests exactly `(TARGET_WIDTH, TARGET_HEIGHT)`). -/
theorem c5_export_dims_fixed (w h : ℕ) (box : Option CropBox) (hw : 1 ≤ w) (hh : 1 ≤ h) :
    crop_and_export_dims w h box = ⟨3840, 2160⟩ := by
  simp [crop_and_export_dims, pilResizeDims, TARGET_WIDTH, TARGET_HEIGHT]

/-- C5 witness: a 1x1 source with the automatic rectangle. -/
theorem c5_export_dims_fixed_witness : crop_and_export_dims 1 1 none = ⟨3840, 2160⟩ :=
  c5_export_dims_fixed 1 1 none (by decide) (by decide)

set_option maxRecDepth 4000 in
/-- C9 (counterexample): with stem `"x"` and a 253-character extension the
derived name is 256 characters long: the slice bound
`255 - len("_fr" + ext)` is negative, so Python's negative slicing leaves
the final name over the 255-character limit.  The claim's guarantee that
the truncated name never exceeds 255 characters fails here. -/
theorem c9_filename_length_counterexample :
    ¬ (frameready_filename "x" (String.mk ('.' :: List.replicate 252 'a'))).length ≤ 255 := by
  decide

/-- C9 (amended: the guarantee holds whenever the extension is at most 252
characters, so that the slice bound `255 - len("_fr" + ext)` is
nonnegative): the derivative's name is `stem ++ "_fr" ++ ext`, placed in
the per-library export subfolder; when that name exceeds 255 characters
the stem is truncated to `252 - ext.length` characters and the final name
does not exceed 255 characters. -/
theorem c9_filename_derivation (library_root folder stem ext : String)
    (hext : ext.length ≤ 252) :
    (frameready_filename stem ext).length ≤ 255 ∧
    ((stem ++ "_fr" ++ ext).length ≤ 255 →
      frameready_filename stem ext = stem ++ "_fr" ++ ext) ∧
    (255 < (stem ++ "_fr" ++ ext).length →
      frameready_filename stem ext =
        String.mk (stem.toList.take (252 - ext.length)) ++ "_fr" ++ ext) ∧
    frameready_output_path library_root (some folder) stem ext =
      library_root ++ "/" ++ folder ++ "/" ++ frameready_filename stem ext := by
  have hfr : ("_fr" ++ ext).length = 3 + ext.length := by
    rw [String.length_append]; rfl
  by_cases hlong : (stem ++ "_fr" ++ ext).length > 255
  · have hbound : (0 : ℤ) ≤ 255 - ((("_fr" ++ ext)).length : ℤ) := by
      rw [hfr]; push_cast; omega
    have htonat : (255 - ((("_fr" ++ ext)).length : ℤ)).toNat = 252 - ext.length := by
      rw [hfr]; push_cast; omega
    have hval : frameready_filename stem ext =
        String.mk (stem.toList.take (252 - ext.length)) ++ "_fr" ++ ext := by
      unfold frameready_filename pySliceTo
      rw [if_pos hlong, if_pos hbound, htonat]
    have hlen : (String.mk (stem.toList.take (252 - ext.length))).length ≤ 252 - ext.length := by
      show (stem.toList.take (252 - ext.length)).length ≤ 252 - ext.length
      simpa using List.length_take_le (252 - ext.length) stem.toList
    refine ⟨?_, fun hc => absurd hc (by omega), fun _ => hval, rfl⟩
    rw [hval]
    calc (String.mk (stem.toList.take (252 - ext.length)) ++ "_fr" ++ ext).length
        = (String.mk (stem.toList.take (252 - ext.length)) ++ "_fr").length + ext.length := by
          rw [String.length_append]
      _ = (String.mk (stem.toList.take (252 - ext.length))).length + 3 + ext.length := by
          rw [String.length_append, show "_fr".length = 3 from rfl]
      _ ≤ (252 - ext.length) + 3 + ext.length := by omega
      _ ≤ 255 := by omega
  · have hval : frameready_filename stem ext = stem ++ "_fr" ++ ext := by
      unfold frameready_filename
      rw [if_neg hlong]
    exact ⟨by rw [hval]; omega, fun _ => hval, fun hc => absurd hc hlong, rfl⟩

/-- C9 witness: the amended statement at stem `"photo"`, extension
`".jpg"`. -/
theorem c9_filename_derivation_witness :
    (frameready_filename "photo" ".jpg").length ≤ 255 ∧
    (("photo" ++ "_fr" ++ ".jpg").length ≤ 255 →
      frameready_filename "photo" ".jpg" = "photo" ++ "_fr" ++ ".jpg") ∧
    (255 < ("photo" ++ "_fr" ++ ".jpg").length →
      frameready_filename "photo" ".jpg" =
        String.mk ("photo".toList.take (252 - ".jpg".length)) ++ "_fr" ++ ".jpg") ∧
    frameready_output_path "/library" (some ".frameready_abc") "photo" ".jpg" =
      "/library" ++ "/" ++ ".frameready_abc" ++ "/" ++ frameready_filename "photo" ".jpg" :=
  c9_filename_derivation "/library" ".frameready_abc" "photo" ".jpg" (by decide)

/-- C10: the derivative is always encoded as JPEG at quality 95 whatever
the source format; the output filename keeps the original extension (so a
`.png` source yields a JPEG-encoded `*_fr.png`); and when saving with the
source's EXIF fails, the derivative is saved without metadata instead of
the export failing. -/
theorem c10_always_jpeg_q95 (exif_data : Option (List ℕ)) (fails : Bool) (stem ext : String) :
    (frameready_save exif_data fails).format = "JPEG" ∧
    (frameready_save exif_data fails).quality = 95 ∧
    (fails = true → (frameready_save exif_data fails).exif = none) ∧
    ∃ base, frameready_filename stem ext = base ++ ext := by
  refine ⟨?_, ?_, ?_, ?_⟩
  · unfold frameready_save
    cases exif_data <;> simp <;> split_ifs <;> rfl
  · unfold frameready_save
    cases exif_data <;> simp <;> split_ifs <;> rfl
  · intro hf
    subst hf
    unfold frameready_save
    cases exif_data <;> simp <;> split_ifs <;> rfl
  · unfold frameready_filename
    split
    · exact ⟨pySliceTo stem (255 - (("_fr" ++ ext).length : ℤ)) ++ "_fr", rfl⟩
    · exact ⟨stem ++ "_fr", rfl⟩

/-- The target resolution itself classifies as close to target. -/
theorem isCloseTo169_target : isCloseTo169 3840 2160 = true := by
  unfold isCloseTo169 detect_orientation_and_aspect
  rw [if_neg (by omega : ¬ (3840 : ℕ) < 2160)]
  norm_num [TARGET_ASPECT, ASPECT_TOLERANCE, TARGET_WIDTH, TARGET_HEIGHT]

/-- A record with the looked-up hash in the table makes `check_duplicates`
report a match. -/
theorem check_duplicates_isSome_of_mem (db : List ImageRow) (r : ImageRow) (x : String)
    (h : r ∈ db) (hm : r.md5_hash = some x) : (check_duplicates db x).isSome := by
  unfold check_duplicates
  have hfind : (db.find? (fun row => row.md5_hash == some x)).isSome :=
    List.find?_isSome.mpr ⟨r, h, by simp [hm]⟩
  cases hf : db.find? (fun row => row.md5_hash == some x) with
  | none => rw [hf] at hfind; simp at hfind
  | some _ => simp

/-- The fresh-insert automatic path of one `process_upload` iteration: no
external fault, no duplicate, landscape and close to target, and no row
with the destination path already in the images table, so
`add_image_to_db` inserts a fresh row holding the staged file's
fingerprint.  The body reports no exception. -/
theorem processFileBody_success (fp : String) (w : World) (env : FileEnv)
    (wd ht : ℕ)
    (h1 : env.writeFault = none) (h2 : env.hashFault = none)
    (hnodup : check_duplicates w.dbImages (compute_md5 env.content) = none)
    (hdec : env.decode = some (wd, ht)) (hl : ¬ wd < ht) (hcl : isCloseTo169 wd ht = true)
    (hfind : w.dbImages.find? (fun r => r.path == fp ++ "/" ++ env.filename) = none)
    (hnz : env.newId ≠ 0) (hcf : env.cropFault = none)
    (hrf : env.renameFault = none) :
    (processFileBody fp w env).2 = none ∧
    (processFileBody fp w env).1.dbImages = w.dbImages ++
      [⟨env.newId, fp ++ "/" ++ env.filename, some (compute_md5 env.content),
        w.job.folder_id⟩] := by
  simp [processFileBody, h1, h2, hdec, hnodup, hcf, hrf, hl, hcl,
    add_image_to_db, hfind, hnz, addStaging, appendResult, cleanup_staging_file]

/-- The path-collision automatic path of one `process_upload` iteration:
same hypotheses but a row with the destination path already exists, so
`add_image_to_db` raises `IntegrityError`, inserts nothing and returns the
existing row's id; the file still finishes in `success` while the images
table — and in particular the existing row's old `md5_hash` — is
unchanged. -/
theorem processFileBody_success_existing (fp : String) (w : World) (env : FileEnv)
    (wd ht : ℕ) (r : ImageRow)
    (h1 : env.writeFault = none) (h2 : env.hashFault = none)
    (hnodup : check_duplicates w.dbImages (compute_md5 env.content) = none)
    (hdec : env.decode = some (wd, ht)) (hl : ¬ wd < ht) (hcl : isCloseTo169 wd ht = true)
    (hfind : w.dbImages.find? (fun row => row.path == fp ++ "/" ++ env.filename) = some r)
    (hnz : r.id ≠ 0) (hcf : env.cropFault = none)
    (hrf : env.renameFault = none) :
    (processFileBody fp w env).2 = none ∧
    (processFileBody fp w env).1.dbImages = w.dbImages ∧
    (processFileBody fp w env).1.job.results =
      w.job.results ++ [⟨env.filename, .success, none, none, some r.id⟩] := by
  simp [processFileBody, h1, h2, hdec, hnodup, hcf, hrf, hl, hcl,
    add_image_to_db, hfind, hnz, addStaging, appendResult, cleanup_staging_file]

/-- A library as `rescan_library` leaves it: the destination path
`lib/a.jpg` is already indexed with a NULL `md5_hash` (main.py line 319
inserts without a hash). -/
def rescanWorld : World :=
  ⟨⟨.processing, 0, 1, 1, [], []⟩, [], [⟨5, "lib/a.jpg", none, 1⟩]⟩

/-- A well-formed 3840x2160 submission named `a.jpg` with empty byte
content, colliding with the rescanned record's path. -/
def collisionEnv : FileEnv :=
  ⟨"a.jpg", "u_a.jpg", [], none, none, none, some (3840, 2160), "", none, 9, none, none⟩

/-- C7 (counterexample): submitting `a.jpg` into a library whose images
table already indexes `lib/a.jpg` without a hash (as `rescan_library`
creates it) runs the automatic path to `success`, but `add_image_to_db`
hits the UNIQUE path constraint, returns the existing id and inserts
nothing, so no row carries the new fingerprint: the duplicate lookup a
second submission of the identical bytes performs reports no match,
refuting the claim. -/
theorem c7_duplicate_lookup_counterexample :
    (processFile "lib" rescanWorld collisionEnv).job.results.map (fun r => r.status) =
      [FileStatus.success] ∧
    check_duplicates (processFile "lib" rescanWorld collisionEnv).dbImages
      (compute_md5 collisionEnv.content) = none := by
  have hbody := processFileBody_success_existing "lib" rescanWorld collisionEnv
    3840 2160 ⟨5, "lib/a.jpg", none, 1⟩ rfl rfl rfl rfl (by omega) isCloseTo169_target
    rfl (by decide) rfl rfl
  have hpf : processFile "lib" rescanWorld collisionEnv =
      (processFileBody "lib" rescanWorld collisionEnv).1 := by
    unfold processFile
    cases hb : processFileBody "lib" rescanWorld collisionEnv with
    | mk w' o =>
      have ho := hbody.1
      rw [hb] at ho
      simp only at ho
      subst ho
      rfl
  constructor
  · rw [hpf, hbody.2.2]
    rfl
  · rw [hpf, hbody.2.1]
    rfl

/-- C7 (amended: restricted to first submissions that complete the
automatic path with a fresh record insert, i.e. whose destination path
does not collide with an existing images-table row; on a collision
`add_image_to_db` returns the existing id without storing the new
fingerprint and the second lookup misses): submitting the same byte
content twice yields the same fingerprint, and once the first submission
has completed the automatic path inserting its fresh record, the
duplicate lookup performed for the second submission reports a match. -/
theorem c7_fingerprint_determinism (fp : String) (w : World) (env1 env2 : FileEnv)
    (wd ht : ℕ)
    (hc : env2.content = env1.content)
    (h1 : env1.writeFault = none) (h2 : env1.hashFault = none)
    (hnodup : check_duplicates w.dbImages (compute_md5 env1.content) = none)
    (hdec : env1.decode = some (wd, ht)) (hl : ¬ wd < ht) (hcl : isCloseTo169 wd ht = true)
    (hfind : w.dbImages.find? (fun r => r.path == fp ++ "/" ++ env1.filename) = none)
    (hnz : env1.newId ≠ 0) (hcf : env1.cropFault = none)
    (hrf : env1.renameFault = none) :
    compute_md5 env2.content = compute_md5 env1.content ∧
    (check_duplicates (processFile fp w env1).dbImages (compute_md5 env2.content)).isSome := by
  have hbody := processFileBody_success fp w env1 wd ht h1 h2 hnodup hdec hl hcl
    hfind hnz hcf hrf
  refine ⟨by rw [hc], ?_⟩
  rw [hc]
  unfold processFile
  cases hpb : processFileBody fp w env1 with
  | mk w' o =>
    rw [hpb] at hbody
    obtain ⟨ho, hdb⟩ := hbody
    simp only at ho hdb
    subst ho
    exact check_duplicates_isSome_of_mem _ _ _
      (hdb ▸ List.mem_append_right w.dbImages (List.mem_singleton.mpr rfl)) rfl

/-- C7 witness for the amended statement: empty byte content submitted
twice into an empty library at 3840x2160. -/
theorem c7_fingerprint_determinism_witness :
    compute_md5 ([] : List ℕ) = compute_md5 ([] : List ℕ) ∧
    (check_duplicates (processFile "lib"
      ⟨⟨.processing, 0, 1, 1, [], []⟩, [], []⟩
      ⟨"a.jpg", "u_a.jpg", [], none, none, none, some (3840, 2160), "", none, 1,
        none, none⟩).dbImages (compute_md5 ([] : List ℕ))).isSome :=
  c7_fingerprint_determinism "lib" ⟨⟨.processing, 0, 1, 1, [], []⟩, [], []⟩
    ⟨"a.jpg", "u_a.jpg", [], none, none, none, some (3840, 2160), "", none, 1, none, none⟩
    ⟨"a.jpg", "u_a.jpg", [], none, none, none, some (3840, 2160), "", none, 1, none, none⟩
    3840 2160 rfl rfl rfl rfl rfl (by omega) isCloseTo169_target rfl (by decide) rfl rfl

/-- C8: a `resolve_duplicate` call whose action is none of `skip`,
`overwrite`, `import_anyway` surfaces an error response and leaves the job
state (hence the named FileResult's `duplicate_detected` status), the
staging area and the images table entirely unchanged. -/
theorem c8_invalid_action_unchanged (w : World) (env : ResolveEnv) (filename action : String)
    (h1 : action ≠ "skip") (h2 : action ≠ "overwrite") (h3 : action ≠ "import_anyway") :
    (handle_duplicate w env filename action).1 = w ∧
    ∃ m, (handle_duplicate w env filename action).2 = ApiResp.error m := by
  unfold handle_duplicate
  repeat' split
  all_goals try contradiction
  all_goals exact ⟨rfl, _, rfl⟩

/-- C8 witness: the invalid action `"delete"` on a one-result job. -/
theorem c8_invalid_action_unchanged_witness :
    (handle_duplicate
      ⟨⟨.waiting_for_user_action, 100, 1, 1,
        [⟨"a.jpg", .duplicate_detected, some "u_a.jpg", some 7, none⟩], []⟩,
        [("u_a.jpg", [])], []⟩
      ⟨some "lib", none, 2, none⟩ "a.jpg" "delete").1 =
      ⟨⟨.waiting_for_user_action, 100, 1, 1,
        [⟨"a.jpg", .duplicate_detected, some "u_a.jpg", some 7, none⟩], []⟩,
        [("u_a.jpg", [])], []⟩ ∧
    ∃ m, (handle_duplicate
      ⟨⟨.waiting_for_user_action, 100, 1, 1,
        [⟨"a.jpg", .duplicate_detected, some "u_a.jpg", some 7, none⟩], []⟩,
        [("u_a.jpg", [])], []⟩
      ⟨some "lib", none, 2, none⟩ "a.jpg" "delete").2 = ApiResp.error m :=
  c8_invalid_action_unchanged _ _ "a.jpg" "delete"
    (by decide) (by decide) (by decide)

/-- The job-level aggregate-status invariant of the claim: the job reads
`waiting_for_user_action` exactly when some FileResult is in
`duplicate_detected` or `needs_positioning`, and `complete` exactly when
every FileResult is terminal (`success`, `skipped`,
`portrait_rejected`). -/
def aggregate_ok (j : Job) : Prop :=
  (j.status = JobStatus.waiting_for_user_action ↔
    ∃ r ∈ j.results, isAwaiting r.status = true) ∧
  (j.status = JobStatus.complete ↔ ∀ r ∈ j.results, isTerminal r.status = true)

/-- A status is terminal exactly when it is not awaiting: the five statuses
split into the two awaiting and the three terminal ones. -/
theorem isTerminal_eq_not_isAwaiting (s : FileStatus) : isTerminal s = !isAwaiting s := by
  cases s <;> rfl

/-- Any job whose status is the recomputed aggregate of its own results
satisfies the invariant. -/
theorem aggregate_ok_of_recompute (j : Job)
    (h : j.status = if j.results.any (fun r => isAwaiting r.status) then
      JobStatus.waiting_for_user_action else JobStatus.complete) :
    aggregate_ok j := by
  unfold aggregate_ok
  cases hany : j.results.any (fun r => isAwaiting r.status) with
  | true =>
    rw [hany, if_pos rfl] at h
    rw [h]
    obtain ⟨r, hr, hra⟩ := List.any_eq_true.mp hany
    constructor
    · exact ⟨fun _ => ⟨r, hr, hra⟩, fun _ => rfl⟩
    · constructor
      · intro hc
        exact nomatch hc
      · intro hall
        have hT := hall r hr
        rw [isTerminal_eq_not_isAwaiting, hra] at hT
        exact nomatch hT
  | false =>
    rw [hany, if_neg (fun hc => nomatch hc)] at h
    rw [h]
    have hnone : ∀ r ∈ j.results, isAwaiting r.status = false := by
      intro r hr
      by_contra hA
      rw [Bool.not_eq_false] at hA
      have hx : j.results.any (fun r => isAwaiting r.status) = true :=
        List.any_eq_true.mpr ⟨r, hr, hA⟩
      rw [hany] at hx
      exact nomatch hx
    constructor
    · constructor
      · intro hc
        exact nomatch hc
      · intro hex
        obtain ⟨r, hr, hra⟩ := hex
        rw [hnone r hr] at hra
        exact nomatch hra
    · constructor
      · intro _ r hr
        rw [isTerminal_eq_not_isAwaiting, hnone r hr]
        rfl
      · intro _
        rfl

/-- `finishJob` establishes the aggregate invariant. -/
theorem aggregate_ok_finishJob (j : Job) : aggregate_ok (finishJob j) :=
  aggregate_ok_of_recompute (finishJob j) rfl

/-- The resolve-time recomputation re-establishes the invariant from a job
that was in `waiting_for_user_action`. -/
theorem aggregate_ok_refresh (j : Job)
    (hst : j.status = JobStatus.waiting_for_user_action) :
    aggregate_ok (refreshAfterResolve j) := by
  apply aggregate_ok_of_recompute
  unfold refreshAfterResolve
  cases hany : j.results.any (fun r => isAwaiting r.status) with
  | true =>
    rw [if_pos rfl, hst, hany, if_pos rfl]
  | false =>
    rw [if_neg (fun hc => nomatch hc)]
    show JobStatus.complete =
      if j.results.any (fun r => isAwaiting r.status) then
        JobStatus.waiting_for_user_action else JobStatus.complete
    rw [hany, if_neg (fun hc => nomatch hc)]

/-- `overwriteDelete` only touches the images table. -/
theorem overwriteDelete_job (w : World) (d : Option ℕ) :
    (overwriteDelete w d).job = w.job := by
  cases d with
  | none => rfl
  | some old_id =>
    show (if old_id ≠ 0 then deleteImageRow w old_id else w).job = w.job
    by_cases hz : old_id ≠ 0
    · rw [if_pos hz]; rfl
    · rw [if_neg hz]

/-- The shared finalization tail preserves the aggregate invariant when the
job it starts from is awaiting a decision. -/
theorem finalizeStaged_aggregate (w : World) (env : ResolveEnv) (fp fn nm sp : String)
    (hok : aggregate_ok w.job) (hst : w.job.status = JobStatus.waiting_for_user_action) :
    aggregate_ok (finalizeStaged w env fp fn nm sp).1.job := by
  unfold finalizeStaged
  split
  · exact hok
  · split
    · exact hok
    next db' image_id heq =>
      by_cases hz : image_id = 0
      · rw [if_pos hz]
        exact hok
      · rw [if_neg hz]
        split
        · exact hok
        · exact aggregate_ok_refresh _ hst

/-- `handle_duplicate` preserves the aggregate invariant. -/
theorem handle_duplicate_aggregate (w : World) (env : ResolveEnv) (fn a : String)
    (hok : aggregate_ok w.job) :
    aggregate_ok (handle_duplicate w env fn a).1.job := by
  unfold handle_duplicate
  split
  · exact hok
  next result heq =>
    split
    · exact hok
    next hstatus =>
      split
      · exact hok
      next sp hsp =>
        split
        · exact hok
        next hmem =>
          split
          · exact hok
          next fpath hfp =>
            have hstw : w.job.status = JobStatus.waiting_for_user_action :=
              hok.1.mpr ⟨result, List.mem_of_find?_eq_some heq,
                by rw [not_not.mp hstatus]; rfl⟩
            by_cases h1 : a = "skip"
            · rw [if_pos h1]
              exact aggregate_ok_refresh _ hstw
            · rw [if_neg h1]
              by_cases h2 : a = "overwrite"
              · rw [if_pos h2]
                exact finalizeStaged_aggregate _ _ _ _ _ _
                  ((overwriteDelete_job w result.dup_id).symm ▸ hok)
                  ((overwriteDelete_job w result.dup_id).symm ▸ hstw)
              · rw [if_neg h2]
                by_cases h3 : a = "import_anyway"
                · rw [if_pos h3]
                  exact finalizeStaged_aggregate _ _ _ _ _ _ hok hstw
                · rw [if_neg h3]
                  exact hok

/-- `finalize_positioned_upload` preserves the aggregate invariant. -/
theorem finalize_positioned_aggregate (w : World) (env : ResolveEnv) (fn : String)
    (hok : aggregate_ok w.job) :
    aggregate_ok (finalize_positioned_upload w env fn).1.job := by
  unfold finalize_positioned_upload
  split
  · exact hok
  next result heq =>
    split
    · exact hok
    next hstatus =>
      split
      · exact hok
      next sp hsp =>
        split
        · exact hok
        next hmem =>
          split
          · exact hok
          next fpath hfp =>
            exact finalizeStaged_aggregate _ _ _ _ _ _ hok
              (hok.1.mpr ⟨result, List.mem_of_find?_eq_some heq,
                by rw [not_not.mp hstatus]; rfl⟩)

/-- `skip_positioned_upload` preserves the aggregate invariant. -/
theorem skip_positioned_aggregate (w : World) (fn : String)
    (hok : aggregate_ok w.job) :
    aggregate_ok (skip_positioned_upload w fn).1.job := by
  unfold skip_positioned_upload
  split
  · exact hok
  next result heq =>
    split
    · exact hok
    next hstatus =>
      split
      · exact hok
      next sp hsp =>
        exact aggregate_ok_refresh _
          (hok.1.mpr ⟨result, List.mem_of_find?_eq_some heq,
            by rw [not_not.mp hstatus]; rfl⟩)

/-- C1: when `process_upload` finishes, the job's aggregate status is
`waiting_for_user_action` iff some FileResult is `duplicate_detected` or
`needs_positioning` and `complete` iff every FileResult is terminal; and
each of the three resolve endpoints preserves that invariant (error
responses leave the state untouched; successful resolutions recompute the
aggregate from the updated results). -/
theorem c1_job_aggregate_status :
    (∀ fp w envs, aggregate_ok (process_upload fp w envs).job) ∧
    (∀ w env fn a, aggregate_ok w.job →
      aggregate_ok (handle_duplicate w env fn a).1.job) ∧
    (∀ w env fn, aggregate_ok w.job →
      aggregate_ok (finalize_positioned_upload w env fn).1.job) ∧
    (∀ w fn, aggregate_ok w.job →
      aggregate_ok (skip_positioned_upload w fn).1.job) :=
  ⟨fun _ w envs => aggregate_ok_finishJob _,
   fun w env fn a hok => handle_duplicate_aggregate w env fn a hok,
   fun w env fn hok => finalize_positioned_aggregate w env fn hok,
   fun w fn hok => skip_positioned_aggregate w fn hok⟩

/-- C1 witness: a processed two-file job (one success, one duplicate), then
a `skip` resolution of the duplicate. -/
theorem c1_job_aggregate_status_witness :
    aggregate_ok (process_upload "lib"
      ⟨⟨.processing, 0, 1, 1, [], []⟩, [], []⟩
      [⟨"a.jpg", "u_a.jpg", [], none, none, none, some (100, 200), "", none, 1,
        none, none⟩]).job ∧
    aggregate_ok (handle_duplicate
      ⟨⟨.waiting_for_user_action, 100, 1, 1,
        [⟨"b.jpg", .duplicate_detected, some "u_b.jpg", some 7, none⟩], []⟩,
        [("u_b.jpg", [])], []⟩
      ⟨some "lib", none, 2, none⟩ "b.jpg" "skip").1.job :=
  ⟨c1_job_aggregate_status.1 "lib" ⟨⟨.processing, 0, 1, 1, [], []⟩, [], []⟩
      [⟨"a.jpg", "u_a.jpg", [], none, none, none, some (100, 200), "", none, 1,
        none, none⟩],
   c1_job_aggregate_status.2.1
      ⟨⟨.waiting_for_user_action, 100, 1, 1,
        [⟨"b.jpg", .duplicate_detected, some "u_b.jpg", some 7, none⟩], []⟩,
        [("u_b.jpg", [])], []⟩
      ⟨some "lib", none, 2, none⟩ "b.jpg" "skip"
      (by constructor <;> simp [aggregate_ok, isAwaiting, isTerminal])⟩

/-- A just-cleaned staging path is absent from the staging area. -/
theorem not_mem_stagingPaths_cleanup (x : World) (p : String) :
    p ∉ stagingPaths (cleanup_staging_file x p) := by
  unfold stagingPaths cleanup_staging_file
  intro hmem
  simp only [List.mem_map] at hmem
  obtain ⟨e, he, hep⟩ := hmem
  rw [List.mem_filter] at he
  have hne := he.2
  simp only [decide_eq_true_eq] at hne
  exact hne hep

/-- `finishJob` never produces the `error` status (it chooses between
`waiting_for_user_action` and `complete`). -/
theorem finishJob_status_ne_error (j : Job) : (finishJob j).status ≠ JobStatus.error := by
  intro hc
  have hc' : (if j.results.any (fun r => isAwaiting r.status) then
      JobStatus.waiting_for_user_action else JobStatus.complete) = JobStatus.error := hc
  split at hc' <;> exact nomatch hc'

/-- On any per-file exception the loop body has not yet touched the job
dict: every job mutation in `process_upload` happens after the last
fallible call of its branch. -/
theorem processFileBody_fault (fp : String) (w : World) (env : FileEnv) (m : String)
    (h : (processFileBody fp w env).2 = some m) :
    (processFileBody fp w env).1.job = w.job := by
  cases hwf : env.writeFault with
  | some m1 => simp [processFileBody, hwf]
  | none =>
  cases hhf : env.hashFault with
  | some m1 => simp [processFileBody, hwf, hhf, addStaging]
  | none =>
  cases hdup : check_duplicates w.dbImages (compute_md5 env.content) with
  | some dup =>
    cases hdsf : env.dupSideFault with
    | some m1 => simp [processFileBody, hwf, hhf, hdup, hdsf, addStaging]
    | none =>
      simp [processFileBody, hwf, hhf, hdup, hdsf, addStaging, appendResult] at h
  | none =>
  cases hdec : env.decode with
  | none => simp [processFileBody, hwf, hhf, hdup, hdec, addStaging]
  | some p =>
  obtain ⟨wd, ht⟩ := p
  by_cases hp : wd < ht
  · simp [processFileBody, hwf, hhf, hdup, hdec, hp, addStaging, appendResult,
      cleanup_staging_file] at h
  · by_cases hcl : isCloseTo169 wd ht = true
    · cases hfind : w.dbImages.find? (fun r => r.path == fp ++ "/" ++ env.filename) with
      | some r =>
        by_cases hz : r.id = 0
        · simp [processFileBody, hwf, hhf, hdup, hdec, hp, hcl, add_image_to_db, hfind,
            hz, addStaging, appendError, cleanup_staging_file] at h
        · cases hcf : env.cropFault with
          | some m1 =>
            simp [processFileBody, hwf, hhf, hdup, hdec, hp, hcl, add_image_to_db,
              hfind, hz, hcf, addStaging]
          | none =>
            cases hrf : env.renameFault with
            | some m1 =>
              simp [processFileBody, hwf, hhf, hdup, hdec, hp, hcl, add_image_to_db,
                hfind, hz, hcf, hrf, addStaging]
            | none =>
              simp [processFileBody, hwf, hhf, hdup, hdec, hp, hcl, add_image_to_db,
                hfind, hz, hcf, hrf, addStaging, appendResult, cleanup_staging_file] at h
      | none =>
        by_cases hz : env.newId = 0
        · simp [processFileBody, hwf, hhf, hdup, hdec, hp, hcl, add_image_to_db, hfind,
            hz, addStaging, appendError, cleanup_staging_file] at h
        · cases hcf : env.cropFault with
          | some m1 =>
            simp [processFileBody, hwf, hhf, hdup, hdec, hp, hcl, add_image_to_db,
              hfind, hz, hcf, addStaging]
          | none =>
            cases hrf : env.renameFault with
            | some m1 =>
              simp [processFileBody, hwf, hhf, hdup, hdec, hp, hcl, add_image_to_db,
                hfind, hz, hcf, hrf, addStaging]
            | none =>
              simp [processFileBody, hwf, hhf, hdup, hdec, hp, hcl, add_image_to_db,
                hfind, hz, hcf, hrf, addStaging, appendResult, cleanup_staging_file] at h
    · cases htf : env.thumbFault with
      | some m1 =>
        simp [processFileBody, hwf, hhf, hdup, hdec, hp, hcl, htf, addStaging]
      | none =>
        simp [processFileBody, hwf, hhf, hdup, hdec, hp, hcl, htf, addStaging,
          appendResult] at h

/-- C6: when processing one file raises (any fault slot of its
environment), the handler appends `"{filename}: {message}"` to the job's
error list, leaves the results untouched, best-effort removes the staging
file, processing continues with the remaining files, and the job's final
status is never `error`. -/
theorem c6_fault_isolation (fp : String) (w : World) (env : FileEnv) (rest : List FileEnv)
    (m : String) (h : (processFileBody fp w env).2 = some m) :
    (processFile fp w env).job.errors = w.job.errors ++ [env.filename ++ ": " ++ m] ∧
    (processFile fp w env).job.results = w.job.results ∧
    env.stagingName ∉ stagingPaths (processFile fp w env) ∧
    processUploadLoop fp w (env :: rest) = processUploadLoop fp (processFile fp w env) rest ∧
    (process_upload fp w (env :: rest)).job.status ≠ JobStatus.error := by
  have hjob := processFileBody_fault fp w env m h
  have hpf : processFile fp w env =
      cleanup_staging_file (appendError (processFileBody fp w env).1
        (env.filename ++ ": " ++ m)) env.stagingName := by
    unfold processFile
    cases hb : processFileBody fp w env with
    | mk w' o =>
      rw [hb] at h
      simp only at h
      subst h
      rfl
  refine ⟨?_, ?_, ?_, rfl, ?_⟩
  · rw [hpf]
    show (processFileBody fp w env).1.job.errors ++ [env.filename ++ ": " ++ m] =
      w.job.errors ++ [env.filename ++ ": " ++ m]
    rw [hjob]
  · rw [hpf]
    show (processFileBody fp w env).1.job.results = w.job.results
    rw [hjob]
  · rw [hpf]
    exact not_mem_stagingPaths_cleanup _ _
  · show (finishJob (processUploadLoop fp w (env :: rest)).job).status ≠ JobStatus.error
    exact finishJob_status_ne_error _

/-- C6 witness: a file whose staging write raises `"disk full"`, followed
by one more file. -/
theorem c6_fault_isolation_witness :
    (processFile "lib" ⟨⟨.processing, 0, 2, 1, [], []⟩, [], []⟩
      ⟨"a.jpg", "u_a.jpg", [], some "disk full", none, none, none, "", none, 1,
        none, none⟩).job.errors = [] ++ ["a.jpg" ++ ": " ++ "disk full"] ∧
    (processFile "lib" ⟨⟨.processing, 0, 2, 1, [], []⟩, [], []⟩
      ⟨"a.jpg", "u_a.jpg", [], some "disk full", none, none, none, "", none, 1,
        none, none⟩).job.results = [] ∧
    "u_a.jpg" ∉ stagingPaths (processFile "lib" ⟨⟨.processing, 0, 2, 1, [], []⟩, [], []⟩
      ⟨"a.jpg", "u_a.jpg", [], some "disk full", none, none, none, "", none, 1,
        none, none⟩) ∧
    processUploadLoop "lib" ⟨⟨.processing, 0, 2, 1, [], []⟩, [], []⟩
      (⟨"a.jpg", "u_a.jpg", [], some "disk full", none, none, none, "", none, 1,
        none, none⟩ ::
        [⟨"b.jpg", "u_b.jpg", [], none, none, none, some (100, 200), "", none, 1,
          none, none⟩]) =
      processUploadLoop "lib" (processFile "lib" ⟨⟨.processing, 0, 2, 1, [], []⟩, [], []⟩
        ⟨"a.jpg", "u_a.jpg", [], some "disk full", none, none, none, "", none, 1,
          none, none⟩)
        [⟨"b.jpg", "u_b.jpg", [], none, none, none, some (100, 200), "", none, 1,
          none, none⟩] ∧
    (process_upload "lib" ⟨⟨.processing, 0, 2, 1, [], []⟩, [], []⟩
      (⟨"a.jpg", "u_a.jpg", [], some "disk full", none, none, none, "", none, 1,
        none, none⟩ ::
        [⟨"b.jpg", "u_b.jpg", [], none, none, none, some (100, 200), "", none, 1,
          none, none⟩])).job.status ≠ JobStatus.error :=
  c6_fault_isolation "lib" ⟨⟨.processing, 0, 2, 1, [], []⟩, [], []⟩
    ⟨"a.jpg", "u_a.jpg", [], some "disk full", none, none, none, "", none, 1,
      none, none⟩
    [⟨"b.jpg", "u_b.jpg", [], none, none, none, some (100, 200), "", none, 1,
      none, none⟩] "disk full" rfl

/-- A library whose images table already holds a record fingerprinted with
the empty content's MD5. -/
def dupWorld : World :=
  ⟨⟨.processing, 0, 1, 1, [], []⟩, [], [⟨7, "lib/old.jpg", some (compute_md5 []), 1⟩]⟩

/-- A portrait submission (100x200) whose bytes duplicate the stored
record's content. -/
def portraitDupEnv : FileEnv :=
  ⟨"p.jpg", "u_p.jpg", [], none, none, none, some (100, 200), "", none, 1, none, none⟩

set_option maxRecDepth 40000 in
/-- C3 (counterexample): a portrait image (decoded 100x200, height greater
than width) whose content duplicates an existing record ends in
`duplicate_detected`, not `portrait_rejected`, and its staging file is
kept: the duplicate check at main.py line 673 runs before the orientation
check at line 700, so a portrait duplicate never reaches the portrait
branch. -/
theorem c3_portrait_duplicate_counterexample :
    portraitDupEnv.decode = some (100, 200) ∧ (100 : ℕ) < 200 ∧
    (processFile "lib" dupWorld portraitDupEnv).job.results.map (fun r => r.status) =
      [FileStatus.duplicate_detected] ∧
    FileStatus.duplicate_detected ≠ FileStatus.portrait_rejected ∧
    "u_p.jpg" ∈ stagingPaths (processFile "lib" dupWorld portraitDupEnv) := by
  refine ⟨rfl, by omega, rfl, by decide, ?_⟩
  show "u_p.jpg" ∈ stagingPaths (processFile "lib" dupWorld portraitDupEnv)
  rw [show stagingPaths (processFile "lib" dupWorld portraitDupEnv) = ["u_p.jpg"] from rfl]
  exact List.mem_singleton.mpr rfl

/-- C3 (amended: restricted to submissions whose fingerprint matches no
existing record, since the duplicate check precedes the orientation
check): every non-duplicate submission decoding to height strictly greater
than width ends with a `portrait_rejected` FileResult appended and its
staging file removed in the same transition. -/
theorem c3_portrait_rejected (fp : String) (w : World) (env : FileEnv) (wd ht : ℕ)
    (h1 : env.writeFault = none) (h2 : env.hashFault = none)
    (hnodup : check_duplicates w.dbImages (compute_md5 env.content) = none)
    (hdec : env.decode = some (wd, ht)) (hp : wd < ht) :
    (processFile fp w env).job.results =
      w.job.results ++ [⟨env.filename, .portrait_rejected, none, none, none⟩] ∧
    env.stagingName ∉ stagingPaths (processFile fp w env) := by
  have hbody : processFileBody fp w env =
      (cleanup_staging_file (appendResult (addStaging w env.stagingName env.content)
        ⟨env.filename, .portrait_rejected, none, none, none⟩) env.stagingName, none) := by
    simp [processFileBody, h1, h2, hdec, hp, addStaging, hnodup]
  have hpf : processFile fp w env =
      cleanup_staging_file (appendResult (addStaging w env.stagingName env.content)
        ⟨env.filename, .portrait_rejected, none, none, none⟩) env.stagingName := by
    unfold processFile
    rw [hbody]
  rw [hpf]
  exact ⟨rfl, not_mem_stagingPaths_cleanup _ _⟩

/-- C3 witness for the amended statement: a 100x200 portrait image into an
empty library. -/
theorem c3_portrait_rejected_witness :
    (processFile "lib" ⟨⟨.processing, 0, 1, 1, [], []⟩, [], []⟩
      ⟨"p.jpg", "u_p.jpg", [], none, none, none, some (100, 200), "", none, 1,
        none, none⟩).job.results =
      [] ++ [⟨"p.jpg", .portrait_rejected, none, none, none⟩] ∧
    "u_p.jpg" ∉ stagingPaths (processFile "lib" ⟨⟨.processing, 0, 1, 1, [], []⟩, [], []⟩
      ⟨"p.jpg", "u_p.jpg", [], none, none, none, some (100, 200), "", none, 1,
        none, none⟩) :=
  c3_portrait_rejected "lib" ⟨⟨.processing, 0, 1, 1, [], []⟩, [], []⟩
    ⟨"p.jpg", "u_p.jpg", [], none, none, none, some (100, 200), "", none, 1,
      none, none⟩ 100 200 rfl rfl rfl rfl (by omega)

/-- C10 witness: a present EXIF blob whose save raises. -/
theorem c10_always_jpeg_q95_witness :
    (frameready_save (some [1]) true).format = "JPEG" ∧
    (frameready_save (some [1]) true).quality = 95 ∧
    (true = true → (frameready_save (some [1]) true).exif = none) ∧
    ∃ base, frameready_filename "shot" ".png" = base ++ ".png" :=
  c10_always_jpeg_q95 (some [1]) true "shot" ".png"
